import Mathlib

/-!
Shallow embedding of the LLM Provider & Model Router core of the
Productpraat repository (src/vps-agent/src/core/llm.py).

The embedding covers:
* the canonical completion result and the per-provider normalization
  performed by `AbacusProvider.complete` and `OpenAIProvider.complete`
  (llm.py lines 36-86 and 96-145);
* the strict JSON parsing that `AbacusProvider` applies to tool-call
  argument strings (`json.loads`, line 74), respectively the `eval` call
  `OpenAIProvider` applies to them (line 133);
* `ModelRouter.__init__` / `select_model` / `get_provider`
  (lines 154-214); and
* the factory `create_llm_setup` (lines 217-255).

The network call itself is external I/O; each `complete` model therefore
takes the backend's outcome (the returned message, or the exception the
transport raised) as an explicit input.  Python floats are modelled by
exact rationals, dictionaries by association lists, and exceptions by an
explicit error type.  Logging calls (`logger.info` / `logger.error`) are
observability only and are not modelled.
-/

namespace LLM

/-- JSON values, as produced by strict JSON parsing.  Number tokens are
kept as their lexeme, which is faithful enough for the properties below
(none of which inspect numeric values). -/
inductive Json where
  | null : Json
  | bool (b : Bool) : Json
  | num (lexeme : String) : Json
  | str (s : String) : Json
  | arr (elems : List Json) : Json
  | obj (fields : List (String × Json)) : Json
deriving Repr

/-- Whitespace accepted between JSON tokens (RFC 8259: space, tab,
newline, carriage return), as in Python `json.loads`. -/
def isJsonWs (c : Char) : Bool :=
  c = ' ' ∨ c = '\t' ∨ c = '\n' ∨ c = '\r'

/-- Drop leading JSON whitespace. -/
def skipWs : List Char → List Char
  | c :: cs => if isJsonWs c then skipWs cs else c :: cs
  | [] => []

/-- Hexadecimal digit value of a character, `none` when not a hex digit. -/
def hexVal (c : Char) : Option Nat :=
  if '0' ≤ c ∧ c ≤ '9' then some (c.toNat - 48)
  else if 'a' ≤ c ∧ c ≤ 'f' then some (c.toNat - 87)
  else if 'A' ≤ c ∧ c ≤ 'F' then some (c.toNat - 55)
  else none

/-- Parse the body of a JSON string literal (the opening quote already
consumed), returning the decoded characters and the rest of the input.
Escapes are handled as in `json.loads`: the short escapes and a
four-hex-digit u-escape. -/
def parseStrBody : Nat → List Char → Option (List Char × List Char)
  | 0, _ => none
  | _, [] => none
  | fuel + 1, c :: cs =>
    if c = '"' then
      some ([], cs)
    else if c = '\\' then
      match cs with
      | [] => none
      | e :: cs' =>
        let decoded : Option Char :=
          if e = '"' then some '"'
          else if e = '\\' then some '\\'
          else if e = '/' then some '/'
          else if e = 'b' then some (Char.ofNat 8)
          else if e = 'f' then some (Char.ofNat 12)
          else if e = 'n' then some '\n'
          else if e = 'r' then some '\r'
          else if e = 't' then some '\t'
          else none
        match decoded with
        | some d =>
          match parseStrBody fuel cs' with
          | some (rest, remaining) => some (d :: rest, remaining)
          | none => none
        | none =>
          if e = 'u' then
            match cs' with
            | h1 :: h2 :: h3 :: h4 :: cs'' =>
              match hexVal h1, hexVal h2, hexVal h3, hexVal h4 with
              | some v1, some v2, some v3, some v4 =>
                let val := 4096 * v1 + 256 * v2 + 16 * v3 + v4
                match parseStrBody fuel cs'' with
                | some (rest, remaining) => some (Char.ofNat (val % 55296) :: rest, remaining)
                | none => none
              | _, _, _, _ => none
            | _ => none
          else none
    else
      match parseStrBody fuel cs with
      | some (rest, remaining) => some (c :: rest, remaining)
      | none => none

/-- Parse a JSON number token starting at the current position:
`-?digits(.digits)?((e|E)(+|-)?digits)?`, returned as its lexeme. -/
def parseNum (cs : List Char) : Option (String × List Char) :=
  let (sign, cs1) :=
    match cs with
    | '-' :: rest => (['-'], rest)
    | _ => (([] : List Char), cs)
  let intPart := cs1.takeWhile Char.isDigit
  let cs2 := cs1.dropWhile Char.isDigit
  if intPart.isEmpty then none
  else
    let (fracPart, cs3) :=
      match cs2 with
      | '.' :: rest =>
        let ds := rest.takeWhile Char.isDigit
        if ds.isEmpty then (([] : List Char), cs2)
        else ('.' :: ds, rest.dropWhile Char.isDigit)
      | _ => (([] : List Char), cs2)
    let (expPart, cs4) :=
      match cs3 with
      | e :: rest =>
        if e = 'e' ∨ e = 'E' then
          let (es, rest') :=
            match rest with
            | s :: r => if s = '+' ∨ s = '-' then ([e, s], r) else ([e], rest)
            | [] => ([e], rest)
          let ds := rest'.takeWhile Char.isDigit
          if ds.isEmpty then (([] : List Char), cs3)
          else (es ++ ds, rest'.dropWhile Char.isDigit)
        else (([] : List Char), cs3)
      | [] => (([] : List Char), cs3)
    some (String.mk (sign ++ intPart ++ fracPart ++ expPart), cs4)

mutual

/-- Parse one JSON value at the current position (leading whitespace
allowed), returning the value and the unconsumed input. -/
def parseJson : Nat → List Char → Option (Json × List Char)
  | 0, _ => none
  | fuel + 1, input =>
    match skipWs input with
    | [] => none
    | c :: cs =>
      if c = '{' then
        match skipWs cs with
        | '}' :: rest => some (.obj [], rest)
        | _ =>
          match parseMembers fuel cs with
          | some (fields, rest) => some (.obj fields, rest)
          | none => none
      else if c = '[' then
        match skipWs cs with
        | ']' :: rest => some (.arr [], rest)
        | _ =>
          match parseElems fuel cs with
          | some (elems, rest) => some (.arr elems, rest)
          | none => none
      else if c = '"' then
        match parseStrBody (cs.length + 1) cs with
        | some (chars, rest) => some (.str (String.mk chars), rest)
        | none => none
      else if ['t', 'r', 'u', 'e'].isPrefixOf (c :: cs) then
        some (.bool true, (c :: cs).drop 4)
      else if ['f', 'a', 'l', 's', 'e'].isPrefixOf (c :: cs) then
        some (.bool false, (c :: cs).drop 5)
      else if ['n', 'u', 'l', 'l'].isPrefixOf (c :: cs) then
        some (.null, (c :: cs).drop 4)
      else
        match parseNum (c :: cs) with
        | some (lex, rest) => some (.num lex, rest)
        | none => none

/-- Parse the non-empty member list of a JSON object (input positioned
just after the opening brace), consuming the closing brace. -/
def parseMembers : Nat → List Char → Option (List (String × Json) × List Char)
  | 0, _ => none
  | fuel + 1, input =>
    match skipWs input with
    | '"' :: cs =>
      match parseStrBody (cs.length + 1) cs with
      | some (keyChars, afterKey) =>
        match skipWs afterKey with
        | ':' :: afterColon =>
          match parseJson fuel afterColon with
          | some (v, afterVal) =>
            match skipWs afterVal with
            | ',' :: afterComma =>
              match parseMembers fuel afterComma with
              | some (fields, rest) => some ((String.mk keyChars, v) :: fields, rest)
              | none => none
            | '}' :: rest => some ([(String.mk keyChars, v)], rest)
            | _ => none
          | none => none
        | _ => none
      | none => none
    | _ => none

/-- Parse the non-empty element list of a JSON array (input positioned
just after the opening bracket), consuming the closing bracket. -/
def parseElems : Nat → List Char → Option (List Json × List Char)
  | 0, _ => none
  | fuel + 1, input =>
    match parseJson fuel input with
    | some (v, afterVal) =>
      match skipWs afterVal with
      | ',' :: afterComma =>
        match parseElems fuel afterComma with
        | some (elems, rest) => some (v :: elems, rest)
        | none => none
      | ']' :: rest => some ([v], rest)
      | _ => none
    | none => none

end

/-- Model of Python `json.loads` (strict JSON): parse the whole string as
a single JSON document; anything but one JSON value surrounded by
whitespace fails (in Python: raises `json.JSONDecodeError`). -/
def json_loads (s : String) : Option Json :=
  match parseJson (s.length + 1) s.data with
  | some (v, rest) => if (skipWs rest).isEmpty then some v else none
  | none => none

/-- A tool call as it arrives from the backend: the argument payload is a
raw string that still has to be decoded (`tool_call.function.arguments`). -/
structure RawToolCall where
  id : String
  name : String
  arguments : String
deriving Repr

/-- The message object of the backend response
(`response.choices[0].message`): optional text content and the tool calls
the model selected (`None` is modelled by the empty list, which is falsy
in Python exactly like `None`). -/
structure BackendMessage where
  content : Option String
  tool_calls : List RawToolCall
deriving Repr

/-- A normalized tool call as built by `complete` (llm.py lines 70-76 and
129-135): id, function name, and decoded arguments. -/
structure ToolCall where
  id : String
  name : String
  arguments : Json
deriving Repr

/-- The canonical completion result `complete` returns (llm.py lines
62-65 and 122-125): text content (empty string when the backend supplied
none) and the list of normalized tool calls. -/
structure CompletionResult where
  content : String
  tool_calls : List ToolCall
deriving Repr

/-- The Python exceptions that can leave the embedded code:
* `backendError name` — an exception of backend-specific type `name`
  raised by `self.client.chat.completions.create`, caught by the
  `except Exception` handler and re-raised unchanged (lines 84-86,
  143-145);
* `jsonDecodeError` — `json.JSONDecodeError` from `json.loads`
  (line 74), likewise re-raised unchanged by the same handler;
* `evalRaised name` — an exception of type `name` raised while `eval`
  executed an argument string (line 133), re-raised unchanged;
* `valueError msg` — the `ValueError` of `create_llm_setup` (line 247).
No error class of the spec's taxonomy (`MalformedResponseError`,
`TransportError`, ...) exists anywhere in the code. -/
inductive PyError where
  | backendError (name : String)
  | jsonDecodeError
  | evalRaised (name : String)
  | valueError (msg : String)
deriving Repr, DecidableEq

/-- Outcome of the backend network call inside the `try` block: either
the response message, or a backend-specific exception of type `name`. -/
inductive BackendOutcome where
  | ok (msg : BackendMessage)
  | raises (name : String)
deriving Repr

/-- Which primitive each provider applies to a tool call's raw argument
string, transcribed from the source: `json.loads` (strict JSON parsing,
llm.py line 74) versus `eval` (evaluation of the string as Python code,
llm.py line 133). -/
inductive ArgDecode where
  | jsonLoads
  | pyEval
deriving Repr, DecidableEq

/-- `AbacusProvider.complete` decodes arguments with `json.loads` (line 74). -/
def abacusArgDecode : ArgDecode := .jsonLoads

/-- `OpenAIProvider.complete` decodes arguments with `eval` (line 133). -/
def openaiArgDecode : ArgDecode := .pyEval

/-- The tool-call loop of `AbacusProvider.complete` (lines 67-76): decode
each raw tool call with `json.loads`; the first `json.JSONDecodeError`
aborts the loop and propagates. -/
def abacusDecodeCalls : List RawToolCall → Except PyError (List ToolCall)
  | [] => .ok []
  | raw :: rest =>
    match json_loads raw.arguments with
    | none => .error .jsonDecodeError
    | some v =>
      match abacusDecodeCalls rest with
      | .ok tcs => .ok (⟨raw.id, raw.name, v⟩ :: tcs)
      | .error e => .error e

/-- `AbacusProvider.complete` (llm.py lines 36-86), as a function of the
backend call's outcome.  Success builds the canonical result with
`content = message.content or ""` and the decoded tool calls; any
exception inside the `try` block (backend-specific or
`json.JSONDecodeError`) is caught by `except Exception`, logged, and
re-raised unchanged. -/
def abacus_complete (outcome : BackendOutcome) : Except PyError CompletionResult :=
  match outcome with
  | .raises name => .error (.backendError name)
  | .ok msg =>
    match abacusDecodeCalls msg.tool_calls with
    | .error e => .error e
    | .ok tcs => .ok ⟨msg.content.getD "", tcs⟩

/-- The tool-call loop of `OpenAIProvider.complete` (lines 127-135): each
raw argument string is handed to Python `eval` and thereby executed as
code.  `eval` is external, arbitrary computation, so it is passed in as
an oracle `evalO` giving, per string, the value it produces or the
exception it raises.  Besides the decoding result, the list of argument
strings that were executed by `eval` is returned (in execution order; on
an exception the loop stops after the failing string). -/
def openaiDecodeCalls (evalO : String → Except String Json) :
    List RawToolCall → Except PyError (List ToolCall) × List String
  | [] => (.ok [], [])
  | raw :: rest =>
    match evalO raw.arguments with
    | .error exn => (.error (.evalRaised exn), [raw.arguments])
    | .ok v =>
      match openaiDecodeCalls evalO rest with
      | (.ok tcs, executed) => (.ok (⟨raw.id, raw.name, v⟩ :: tcs), raw.arguments :: executed)
      | (.error e, executed) => (.error e, raw.arguments :: executed)

/-- `OpenAIProvider.complete` (llm.py lines 96-145), as a function of the
`eval` oracle and the backend call's outcome.  The first component is
what the call returns or raises; the second is the list of tool-call
argument strings that were executed as Python code by `eval`. -/
def openai_complete (evalO : String → Except String Json) (outcome : BackendOutcome) :
    Except PyError CompletionResult × List String :=
  match outcome with
  | .raises name => (.error (.backendError name), [])
  | .ok msg =>
    match openaiDecodeCalls evalO msg.tool_calls with
    | (.error e, executed) => (.error e, executed)
    | (.ok tcs, executed) => (.ok ⟨msg.content.getD "", tcs⟩, executed)

/-- Configuration dictionary: association list from key to string value
(Python `dict`; `lookup` is `dict.get`). -/
abbrev Config := List (String × String)

/-- Python truthiness of `config.get(key)`: the key is absent, or present
with a falsy (empty-string) value, makes the guard fail. -/
def truthy (o : Option String) : Bool :=
  match o with
  | none => false
  | some s => s ≠ ""

/-- A constructed provider instance, with the constructor arguments used
at llm.py lines 32-34 and 92-94. -/
inductive Provider where
  | abacusProvider (api_key base_url default_model : String)
  | openaiProvider (api_key default_model : String)
deriving Repr, DecidableEq

/-- The provider registry `self.providers`: provider key to instance. -/
abbrev Registry := List (String × Provider)

/-- The model-tier table `self.models` built by `ModelRouter.__init__`
(llm.py lines 163-168): each tier is `self.config.get(KEY, literal)`. -/
structure RouterModels where
  complex : String
  fast : String
  coding : String
  default : String
deriving Repr, DecidableEq

/-- `ModelRouter.__init__` (llm.py lines 154-168): the tier table, with
the hard-coded fallback literals of the source. -/
def mkModels (config : Config) : RouterModels :=
  { complex := (config.lookup "MODEL_COMPLEX").getD "claude-3-5-sonnet"
    fast := (config.lookup "MODEL_FAST").getD "claude-3-haiku"
    coding := (config.lookup "MODEL_CODING").getD "claude-3-5-sonnet"
    default := (config.lookup "DEFAULT_MODEL").getD "claude-3-5-sonnet" }

/-- `ModelRouter.select_model` (llm.py lines 170-203): the decision
table, evaluated top-to-bottom, first match wins.  `complexity` is a
Python float, modelled by an exact rational. -/
def select_model (m : RouterModels) (task_type : String) (complexity : ℚ) : String :=
  if complexity > 7 / 10 then m.complex
  else if task_type = "code" ∨ task_type = "coding" ∨ task_type = "programming" then m.coding
  else if complexity < 3 / 10 ∧
      (task_type = "simple" ∨ task_type = "file_operation" ∨ task_type = "read") then m.fast
  else if task_type = "analysis" ∨ task_type = "research" ∨ task_type = "planning" then m.complex
  else m.default

/-- `str.lower` on a Python string. -/
def lowerStr (s : String) : String := String.mk (s.data.map Char.toLower)

/-- Python `pat in s` on strings: `pat` occurs as a contiguous substring
of `s`. -/
def containsSub (s pat : String) : Bool :=
  (List.range (s.data.length + 1)).any (fun i => pat.data.isPrefixOf (s.data.drop i))

/-- The provider key `ModelRouter.get_provider` resolves a model name to
(llm.py lines 205-214): `"gpt" in model.lower()` is checked first, then
`"claude" in model.lower()`, and everything else defaults to `"abacus"`. -/
def resolveProviderKey (model : String) : String :=
  if containsSub (lowerStr model) "gpt" then "openai"
  else if containsSub (lowerStr model) "claude" then "abacus"
  else "abacus"

/-- `ModelRouter.get_provider` (llm.py lines 205-214): branch on the
model name and return `self.providers.get(key)` — an `Option`, since
Python `dict.get` returns `None` for a missing key. -/
def get_provider (providers : Registry) (model : String) : Option Provider :=
  if containsSub (lowerStr model) "gpt" then providers.lookup "openai"
  else if containsSub (lowerStr model) "claude" then providers.lookup "abacus"
  else providers.lookup "abacus"

/-- The provider dictionary built by `create_llm_setup` (llm.py lines
227-244): an entry per backend whose API-key config value is truthy
(`if config.get("ABACUS_API_KEY"):` — an absent key and a present
empty-string key are both falsy), with the constructor arguments of the
source. -/
def setupProviders (config : Config) : Registry :=
  (if truthy (config.lookup "ABACUS_API_KEY") then
    [("abacus", .abacusProvider ((config.lookup "ABACUS_API_KEY").getD "")
      ((config.lookup "ABACUS_BASE_URL").getD "https://api.abacus.ai/v1")
      ((config.lookup "DEFAULT_MODEL").getD "claude-3-5-sonnet"))]
   else []) ++
  (if truthy (config.lookup "OPENAI_API_KEY") then
    [("openai", .openaiProvider ((config.lookup "OPENAI_API_KEY").getD "")
      ((config.lookup "OPENAI_MODEL").getD "gpt-4-turbo-preview"))]
   else [])

/-- `create_llm_setup` (llm.py lines 217-255): build the provider
dictionary, raise `ValueError("No LLM providers configured. Set
ABACUS_API_KEY")` when it stayed empty, and otherwise return the default
provider (`providers.get("abacus") or providers.get("openai")`), the
registry, and the router's tier table. -/
def create_llm_setup (config : Config) :
    Except PyError (Option Provider × Registry × RouterModels) :=
  let providers := setupProviders config
  if providers.isEmpty then
    .error (.valueError "No LLM providers configured. Set ABACUS_API_KEY")
  else
    .ok ((providers.lookup "abacus").orElse (fun _ => providers.lookup "openai"),
      providers, mkModels config)

/-- `true` exactly when the call raised (`Except.error`). -/
def isErr {ε α : Type} (x : Except ε α) : Bool :=
  match x with
  | .error _ => true
  | .ok _ => false

/-! ## Theorems -/

/-- The two branches of `get_provider` both amount to looking the
resolved provider key up in the registry. -/
theorem get_provider_lookup_eq (providers : Registry) (model : String) :
    get_provider providers model = providers.lookup (resolveProviderKey model) := by
  unfold get_provider resolveProviderKey
  split_ifs <;> rfl

/-- C4: `select_model` evaluates its decision table top-to-bottom with
first match winning: any complexity above 0.7 yields the complex tier
regardless of task type, so `select_model "coding" 0.8` is the complex
tier while `select_model "coding" 0.5` is the coding tier. -/
theorem select_model_rule1_precedence (m : RouterModels) (task_type : String)
    (complexity : ℚ) (h : complexity > 7 / 10) :
    select_model m task_type complexity = m.complex ∧
    select_model m "coding" (8 / 10) = m.complex ∧
    select_model m "coding" (5 / 10) = m.coding := by
  refine ⟨?_, ?_, ?_⟩
  · unfold select_model
    rw [if_pos h]
  · unfold select_model
    norm_num
  · unfold select_model
    norm_num

/-- Witness for C4 at concrete inputs. -/
theorem select_model_rule1_precedence_witness :
    select_model (mkModels []) "coding" (8 / 10) = (mkModels []).complex :=
  (select_model_rule1_precedence (mkModels []) "coding" (8 / 10) (by norm_num)).1

/-- C5: the complexity thresholds are strict: at exactly 0.7 rule 1 does
not fire (a task matching no later rule lands on the default tier, not
the complex tier), at exactly 0.3 rule 3 does not fire
(`select_model "file_operation" 0.3` falls through to the default tier),
while `select_model "file_operation" 0.2` is the fast tier. -/
theorem select_model_strict_boundaries (m : RouterModels) :
    select_model m "simple" (7 / 10) = m.default ∧
    select_model m "file_operation" (3 / 10) = m.default ∧
    select_model m "file_operation" (2 / 10) = m.fast := by
  refine ⟨?_, ?_, ?_⟩ <;>
    · unfold select_model
      norm_num
      first
      | rw [if_neg (by decide), if_neg (by decide)]
      | exact fun h => absurd h (by decide)

/-- C10: `select_model` is total (the embedding is a total function, as
is the source: every branch returns) and always returns one of the four
configured tier models, for every task type and every rational
complexity, also outside [0, 1]. -/
theorem select_model_total (m : RouterModels) (task_type : String) (complexity : ℚ) :
    select_model m task_type complexity = m.complex ∨
    select_model m task_type complexity = m.coding ∨
    select_model m task_type complexity = m.fast ∨
    select_model m task_type complexity = m.default := by
  unfold select_model
  split_ifs <;> simp

/-- C6 counterexample: a model name containing both fragments refutes
"every model whose lowercased name contains claude resolves to the
abacus key": `"claude-gpt"` contains `"claude"` yet resolves to
`"openai"`, because the `"gpt"` test comes first. -/
theorem resolveProviderKey_claude_gpt :
    containsSub (lowerStr "claude-gpt") "claude" = true ∧
    resolveProviderKey "claude-gpt" = "openai" ∧ ("openai" : String) ≠ "abacus" := by
  refine ⟨by decide, by decide, by decide⟩

/-- C6 amended: `get_provider` looks the resolved key up in the
registry, and the key resolution checks the `"gpt"` fragment first: a
lowercased name containing `"gpt"` resolves to `"openai"`; one
containing `"claude"` but not `"gpt"` resolves to `"abacus"`; one
containing neither falls back to `"abacus"`.  The spec's three examples
resolve accordingly. -/
theorem get_provider_resolution (providers : Registry) (model : String) :
    (containsSub (lowerStr model) "gpt" = true → resolveProviderKey model = "openai") ∧
    (containsSub (lowerStr model) "gpt" = false →
      containsSub (lowerStr model) "claude" = true → resolveProviderKey model = "abacus") ∧
    (containsSub (lowerStr model) "gpt" = false →
      containsSub (lowerStr model) "claude" = false → resolveProviderKey model = "abacus") ∧
    get_provider providers model = providers.lookup (resolveProviderKey model) ∧
    resolveProviderKey "claude-3-5-sonnet" = "abacus" ∧
    resolveProviderKey "gpt-4-turbo-preview" = "openai" ∧
    resolveProviderKey "unknown-model" = "abacus" := by
  refine ⟨?_, ?_, ?_, get_provider_lookup_eq providers model, by decide, by decide, by decide⟩
  · intro h
    unfold resolveProviderKey
    rw [if_pos h]
  · intro h1 h2
    unfold resolveProviderKey
    rw [if_neg (by simp [h1]), if_pos h2]
  · intro h1 h2
    unfold resolveProviderKey
    rw [if_neg (by simp [h1]), if_neg (by simp [h2])]

/-- Witness for C6 at concrete inputs. -/
theorem get_provider_resolution_witness :
    resolveProviderKey "gpt-4-turbo-preview" = "openai" ∧
    resolveProviderKey "claude-3-5-sonnet" = "abacus" :=
  ⟨(get_provider_resolution [] "gpt-4-turbo-preview").1 (by decide),
   (get_provider_resolution [] "claude-3-5-sonnet").2.1 (by decide) (by decide)⟩

/-- C2 counterexample: with only the abacus provider configured,
`get_provider "gpt-4-turbo-preview"` returns `None`
(`self.providers.get("openai")` on a dictionary without that key) — it
does not raise any `ProviderNotConfigured` error; no such class exists
in the code. -/
theorem get_provider_missing_key_returns_none :
    get_provider [("abacus", Provider.abacusProvider "key" "https://api.abacus.ai/v1"
      "claude-3-5-sonnet")] "gpt-4-turbo-preview" = none := by
  decide

/-- C2 amended: when the resolved provider key is absent from the
registry, `get_provider` returns `None` (an unusable value) rather than
raising: the function is total and never fails. -/
theorem get_provider_absent_key_none (providers : Registry) (model : String)
    (h : providers.lookup (resolveProviderKey model) = none) :
    get_provider providers model = none := by
  rw [get_provider_lookup_eq providers model, h]

/-- Witness for C2 at a concrete registry and model. -/
theorem get_provider_absent_key_none_witness :
    get_provider [("abacus", Provider.abacusProvider "key" "https://api.abacus.ai/v1"
      "claude-3-5-sonnet")] "gpt-4" = none :=
  get_provider_absent_key_none _ "gpt-4" (by decide)

/-- C7 counterexample: the credential key `ABACUS_API_KEY` IS present in
the configuration (with an empty-string value), yet no provider is
constructed and `create_llm_setup` raises — refuting "constructs a
Provider exactly for each backend whose required credential key is
present" (the code tests Python truthiness, not presence; the raised
error is a plain `ValueError`, there is no `ConfigurationError` class). -/
theorem create_llm_setup_empty_credential :
    List.lookup "ABACUS_API_KEY" [("ABACUS_API_KEY", "")] = some "" ∧
    create_llm_setup [("ABACUS_API_KEY", "")] =
      .error (.valueError "No LLM providers configured. Set ABACUS_API_KEY") := by
  refine ⟨by decide, rfl⟩

/-- C7 amended: `create_llm_setup` constructs a provider exactly for
each backend whose credential config value is truthy (present and
non-empty); it raises — a `ValueError`, the failure the spec names
`ConfigurationError` — exactly when zero providers were constructed; in
particular `create_llm_setup {}` raises that error. -/
theorem create_llm_setup_spec (config : Config) :
    ((setupProviders config).lookup "abacus").isSome =
      truthy (config.lookup "ABACUS_API_KEY") ∧
    ((setupProviders config).lookup "openai").isSome =
      truthy (config.lookup "OPENAI_API_KEY") ∧
    isErr (create_llm_setup config) = (setupProviders config).isEmpty ∧
    create_llm_setup [] =
      .error (.valueError "No LLM providers configured. Set ABACUS_API_KEY") := by
  refine ⟨?_, ?_, ?_, rfl⟩
  · unfold setupProviders
    cases h1 : truthy (config.lookup "ABACUS_API_KEY") <;>
      cases h2 : truthy (config.lookup "OPENAI_API_KEY") <;>
        simp [h1, h2, List.lookup]
  · unfold setupProviders
    cases h1 : truthy (config.lookup "ABACUS_API_KEY") <;>
      cases h2 : truthy (config.lookup "OPENAI_API_KEY") <;>
        simp [h1, h2, List.lookup]
  · unfold create_llm_setup
    cases h : (setupProviders config).isEmpty <;> simp [h, isErr]

/-- C9 counterexample: with `DEFAULT_MODEL` set to a custom value and
`MODEL_COMPLEX` / `MODEL_CODING` absent, those tiers resolve to the
hard-coded literal `"claude-3-5-sonnet"`, not to the configured
`DEFAULT_MODEL` value — refuting "defaults to the value of
DEFAULT_MODEL from that configuration". -/
theorem mkModels_ignores_default_model :
    (mkModels [("DEFAULT_MODEL", "my-custom-model")]).complex = "claude-3-5-sonnet" ∧
    (mkModels [("DEFAULT_MODEL", "my-custom-model")]).coding = "claude-3-5-sonnet" ∧
    (mkModels [("DEFAULT_MODEL", "my-custom-model")]).default = "my-custom-model" ∧
    ("claude-3-5-sonnet" : String) ≠ "my-custom-model" := by
  refine ⟨by decide, by decide, by decide, by decide⟩

/-- C9 amended: an absent `MODEL_COMPLEX` or `MODEL_CODING` makes the
tier fall back to the fixed literal `"claude-3-5-sonnet"` (the primary
backend's built-in default model name, independent of the configured
`DEFAULT_MODEL`), and an absent `MODEL_FAST` falls back to the
smaller/faster `"claude-3-haiku"`. -/
theorem mkModels_fallback_literals (config : Config)
    (hc : config.lookup "MODEL_COMPLEX" = none)
    (hk : config.lookup "MODEL_CODING" = none)
    (hf : config.lookup "MODEL_FAST" = none) :
    (mkModels config).complex = "claude-3-5-sonnet" ∧
    (mkModels config).coding = "claude-3-5-sonnet" ∧
    (mkModels config).fast = "claude-3-haiku" := by
  unfold mkModels
  rw [hc, hk, hf]
  exact ⟨rfl, rfl, rfl⟩

/-- Witness for C9 at a concrete configuration. -/
theorem mkModels_fallback_literals_witness :
    (mkModels [("DEFAULT_MODEL", "claude-opus-4")]).fast = "claude-3-haiku" :=
  (mkModels_fallback_literals [("DEFAULT_MODEL", "claude-opus-4")]
    (by decide) (by decide) (by decide)).2.2

/-- C3 counterexample: a backend-specific exception
(`httpx.ConnectError` from the Abacus transport, an authentication
error from the OpenAI client) leaves `complete` as itself: the
`except Exception` handler logs and bare-re-raises, wrapping nothing
into any categorized error kind (no such classes exist in the code). -/
theorem backend_exception_escapes_unwrapped :
    abacus_complete (.raises "httpx.ConnectError") =
      .error (.backendError "httpx.ConnectError") ∧
    (openai_complete (fun _ => .ok (.obj [])) (.raises "openai.AuthenticationError")).1 =
      .error (.backendError "openai.AuthenticationError") := by
  refine ⟨rfl, rfl⟩

/-- C3 amended: every failure inside `complete` is caught, logged, and
re-raised unchanged: the backend-specific exception itself (or the bare
`json.JSONDecodeError` for non-JSON tool arguments) escapes the
Provider boundary, for both provider variants; no classification into
the spec's error taxonomy occurs. -/
theorem complete_reraises_unchanged (evalO : String → Except String Json) (name : String) :
    abacus_complete (.raises name) = .error (.backendError name) ∧
    (openai_complete evalO (.raises name)).1 = .error (.backendError name) ∧
    abacus_complete (.ok ⟨some "x", [⟨"call_1", "web_search", "\x7bbad json"⟩]⟩) =
      .error .jsonDecodeError := by
  refine ⟨rfl, rfl, rfl⟩

/-- C1 (defect in the code, acknowledged by the spec's design notes):
`OpenAIProvider.complete` hands each raw tool-call argument string to
Python `eval`, executing it as code — here a non-JSON Python expression
reaches `eval` and is executed — while `AbacusProvider.complete` parses
with strict `json.loads`, which rejects `"\x7bbad json"`; but even there
the failure escapes as the bare `json.JSONDecodeError`, not as any
`MalformedResponseError` (no such class exists in the code). -/
theorem openai_eval_executes_arguments :
    openaiArgDecode = ArgDecode.pyEval ∧
    openaiArgDecode ≠ abacusArgDecode ∧
    (openai_complete (fun _ => .ok (.num "0"))
      (.ok ⟨none, [⟨"call_1", "execute_command", "__import__(\"os\").system(\"id\")"⟩]⟩)).2 =
      ["__import__(\"os\").system(\"id\")"] ∧
    (openai_complete (fun _ => .error "SyntaxError")
      (.ok ⟨none, [⟨"call_1", "execute_command", "\x7bbad json"⟩]⟩)).2 = ["\x7bbad json"] ∧
    json_loads "\x7bbad json" = none ∧
    abacus_complete (.ok ⟨none, [⟨"call_1", "execute_command", "\x7bbad json"⟩]⟩) =
      .error .jsonDecodeError := by
  refine ⟨rfl, by decide, rfl, rfl, rfl, rfl⟩

/-- C8: when the backend message selects no tools, both providers
return a `CompletionResult` whose `tool_calls` is the empty list (never
absent) and whose `content` is the backend's text — the empty string
when the backend supplied none (`message.content or ""`). -/
theorem complete_no_tools_normalization (evalO : String → Except String Json)
    (msg : BackendMessage) (h : msg.tool_calls = []) :
    abacus_complete (.ok msg) = .ok ⟨msg.content.getD "", []⟩ ∧
    (openai_complete evalO (.ok msg)).1 = .ok ⟨msg.content.getD "", []⟩ ∧
    (msg.content = none → abacus_complete (.ok msg) = .ok ⟨"", []⟩) := by
  obtain ⟨c, t⟩ := msg
  have ht : t = [] := h
  subst ht
  refine ⟨rfl, rfl, ?_⟩
  intro hc
  have hc' : c = none := hc
  subst hc'
  rfl

/-- Witness for C8 at concrete messages. -/
theorem complete_no_tools_normalization_witness :
    abacus_complete (.ok ⟨some "hello", []⟩) = .ok ⟨"hello", []⟩ ∧
    abacus_complete (.ok ⟨none, []⟩) = .ok ⟨"", []⟩ :=
  ⟨(complete_no_tools_normalization (fun _ => .ok .null) ⟨some "hello", []⟩ rfl).1,
   (complete_no_tools_normalization (fun _ => .ok .null) ⟨none, []⟩ rfl).2.2 rfl⟩

end LLM
